import Mathlib

/-!
Verification of the ConsultEase Faculty Desk Unit display configuration
manifest (`src/faculty_desk_unit/User_Setup.h`).

The source file is a C preprocessor header consumed by the TFT_eSPI display
driver library.  Its operational content is exactly the multiset of active
`#define` directives it contains: each directive introduces a symbol, either
bare (a flag), with an integer value, with an identifier value, or with a
string value.  Commented-out directives introduce nothing.

We embed the file as the ordered list of its active `#define` directives,
transcribed line by line from the source, and settle each claim by
computation over that list.
-/

/-- The value attached to a preprocessor define: a bare flag carries no
value; otherwise the replacement token is an integer literal, an
identifier, or a string literal. -/
inductive DefValue where
  | flag : DefValue
  | int : Int → DefValue
  | ident : String → DefValue
  | str : String → DefValue
deriving DecidableEq, Repr

/-- One active `#define` directive: the defined symbol and its value. -/
structure Define where
  name : String
  value : DefValue
deriving DecidableEq, Repr

/-- The active `#define` directives of `User_Setup.h`, in file order.
Commented-out directives (`//#define TFT_PARALLEL_8_BIT`,
`//#define SPI_FREQUENCY  40000000`, `//#define LOAD_FONT8N`,
`//#define SPI_TOUCH`, `// #define TFT_RGB_ORDER TFT_RGB`,
`//#define SUPPORT_TRANSACTIONS`) are inactive and therefore absent. -/
def userSetup : List Define :=
  [ ⟨"USER_SETUP_INFO", .str "ConsultEase Faculty Desk Unit"⟩
  , ⟨"ESP32_PARALLEL", .flag⟩
  , ⟨"ST7789_DRIVER", .flag⟩
  , ⟨"TFT_WIDTH", .int 240⟩
  , ⟨"TFT_HEIGHT", .int 320⟩
  , ⟨"CGRAM_OFFSET", .flag⟩
  , ⟨"SPI_FREQUENCY", .int 27000000⟩
  , ⟨"TFT_MISO", .int 19⟩
  , ⟨"TFT_MOSI", .int 23⟩
  , ⟨"TFT_SCLK", .int 18⟩
  , ⟨"TFT_CS", .int 5⟩
  , ⟨"TFT_DC", .int 2⟩
  , ⟨"TFT_RST", .int 4⟩
  , ⟨"TFT_BL", .int 15⟩
  , ⟨"TOUCH_CS", .int (-1)⟩
  , ⟨"TFT_SPI_MODE", .ident "SPI_MODE0"⟩
  , ⟨"LOAD_GLCD", .flag⟩
  , ⟨"LOAD_FONT2", .flag⟩
  , ⟨"LOAD_FONT4", .flag⟩
  , ⟨"LOAD_FONT6", .flag⟩
  , ⟨"LOAD_FONT7", .flag⟩
  , ⟨"LOAD_FONT8", .flag⟩
  , ⟨"SMOOTH_FONT", .flag⟩
  , ⟨"TFT_RGB_ORDER", .ident "TFT_BGR"⟩
  ]

/-- A symbol is defined by a configuration iff some directive defines it. -/
def isDefined (cfg : List Define) (n : String) : Bool :=
  cfg.any (fun d => d.name == n)

/-- The value of the first directive defining a symbol, if any (the
preprocessor uses the most recent definition; with no redefinition in this
file, first and last coincide). -/
def definedValue (cfg : List Define) (n : String) : Option DefValue :=
  (cfg.find? (fun d => d.name == n)).map Define.value

/-- How many directives of the configuration define a given symbol. -/
def defineCount (cfg : List Define) (n : String) : Nat :=
  (cfg.filter (fun d => d.name == n)).length

/-- The integer value of a symbol, when it is defined with an integer. -/
def intValue (cfg : List Define) (n : String) : Option Int :=
  match definedValue cfg n with
  | some (.int i) => some i
  | _ => none

/-- The seven active display pin symbols of the pin map, in file order. -/
def displayPinSymbols : List String :=
  ["TFT_MISO", "TFT_MOSI", "TFT_SCLK", "TFT_CS", "TFT_DC", "TFT_RST", "TFT_BL"]

/-- All pin symbols of the pin map, the touch chip-select included. -/
def pinSymbols : List String := displayPinSymbols ++ ["TOUCH_CS"]

/-- The seven-member font-inclusion flag family of the driver library:
the six fonts the file activates plus the narrow 75-pixel variant. -/
def fontFamily : List String :=
  ["LOAD_GLCD", "LOAD_FONT2", "LOAD_FONT4", "LOAD_FONT6", "LOAD_FONT7",
   "LOAD_FONT8", "LOAD_FONT8N"]

/-- C1: the manifest defines the display-controller tag ST7789_DRIVER, so
the driver library specializes to the ST7789 command set. -/
theorem c1_st7789_driver_defined :
    isDefined userSetup "ST7789_DRIVER" = true := by decide

/-- C2: the manifest declares the panel geometry as width 240 and height
320 (TFT_WIDTH = 240, TFT_HEIGHT = 320) and defines the column/row offset
correction flag CGRAM_OFFSET. -/
theorem c2_panel_geometry :
    definedValue userSetup "TFT_WIDTH" = some (.int 240) ∧
    definedValue userSetup "TFT_HEIGHT" = some (.int 320) ∧
    isDefined userSetup "CGRAM_OFFSET" = true := by decide

/-- C3: the manifest selects a serial bus at exactly 27,000,000 Hz in SPI
mode 0: SPI_FREQUENCY is defined as 27000000, TFT_SPI_MODE is defined as
SPI_MODE0, and the parallel-transport flag TFT_PARALLEL_8_BIT is not
defined. -/
theorem c3_serial_bus_27mhz_mode0 :
    definedValue userSetup "SPI_FREQUENCY" = some (.int 27000000) ∧
    definedValue userSetup "TFT_SPI_MODE" = some (.ident "SPI_MODE0") ∧
    isDefined userSetup "TFT_PARALLEL_8_BIT" = false := by decide

/-- C4: the manifest assigns the GPIO pin map exactly as: TFT_MISO 19,
TFT_MOSI 23, TFT_SCLK 18, TFT_CS 5, TFT_DC 2, TFT_RST 4, TFT_BL 15, and
declares the touch chip-select absent by defining TOUCH_CS as the sentinel
value -1. -/
theorem c4_pin_map :
    definedValue userSetup "TFT_MISO" = some (.int 19) ∧
    definedValue userSetup "TFT_MOSI" = some (.int 23) ∧
    definedValue userSetup "TFT_SCLK" = some (.int 18) ∧
    definedValue userSetup "TFT_CS" = some (.int 5) ∧
    definedValue userSetup "TFT_DC" = some (.int 2) ∧
    definedValue userSetup "TFT_RST" = some (.int 4) ∧
    definedValue userSetup "TFT_BL" = some (.int 15) ∧
    definedValue userSetup "TOUCH_CS" = some (.int (-1)) := by decide

/-- C5: the manifest defines the 16-bit pixel channel-order tag as
blue-green-red: TFT_RGB_ORDER is defined as TFT_BGR, and no directive
selects the red-green-blue alternative TFT_RGB. -/
theorem c5_channel_order_bgr :
    definedValue userSetup "TFT_RGB_ORDER" = some (.ident "TFT_BGR") ∧
    userSetup.filter (fun d => d.value == .ident "TFT_RGB") = [] := by decide

/-- C6: of the font-inclusion flag family, the manifest defines exactly
the six flags LOAD_GLCD, LOAD_FONT2, LOAD_FONT4, LOAD_FONT6, LOAD_FONT7,
LOAD_FONT8 (the 8-pixel original, 16-pixel, 26-pixel, 48-pixel numeric,
48-pixel seven-segment, and 75-pixel fonts), and also defines the
smooth-font flag SMOOTH_FONT. -/
theorem c6_fonts :
    fontFamily.filter (isDefined userSetup) =
      ["LOAD_GLCD", "LOAD_FONT2", "LOAD_FONT4", "LOAD_FONT6", "LOAD_FONT7",
       "LOAD_FONT8"] ∧
    isDefined userSetup "SMOOTH_FONT" = true := by decide

/-- C7: every unused option the spec lists is left undefined:
TFT_PARALLEL_8_BIT, LOAD_FONT8N, SPI_TOUCH and SUPPORT_TRANSACTIONS are
absent from the defined symbol set, and the 40 MHz SPI_FREQUENCY
alternative is not active — SPI_FREQUENCY is defined exactly once, with
value 27000000, and no directive carries the value 40000000. -/
theorem c7_unused_options_absent :
    isDefined userSetup "TFT_PARALLEL_8_BIT" = false ∧
    isDefined userSetup "LOAD_FONT8N" = false ∧
    isDefined userSetup "SPI_TOUCH" = false ∧
    isDefined userSetup "SUPPORT_TRANSACTIONS" = false ∧
    defineCount userSetup "SPI_FREQUENCY" = 1 ∧
    definedValue userSetup "SPI_FREQUENCY" = some (.int 27000000) ∧
    userSetup.filter (fun d => d.value == .int 40000000) = [] := by decide

/-- Whether a string ends with the given suffix, computed on the
underlying character lists. -/
def strEndsWith (s suffix : String) : Bool :=
  suffix.data.isSuffixOf s.data

/-- C8: each tag group has exactly one tag: the only defined symbol whose
name ends in the controller suffix is ST7789_DRIVER, defined once; the
bus-mode tag TFT_SPI_MODE is defined exactly once, as SPI_MODE0; the
channel-order tag TFT_RGB_ORDER is defined exactly once, as TFT_BGR. -/
theorem c8_unique_tags :
    (userSetup.filter (fun d => strEndsWith d.name "_DRIVER")).map
        Define.name = ["ST7789_DRIVER"] ∧
    defineCount userSetup "ST7789_DRIVER" = 1 ∧
    defineCount userSetup "TFT_SPI_MODE" = 1 ∧
    definedValue userSetup "TFT_SPI_MODE" = some (.ident "SPI_MODE0") ∧
    defineCount userSetup "TFT_RGB_ORDER" = 1 ∧
    definedValue userSetup "TFT_RGB_ORDER" = some (.ident "TFT_BGR") := by
  decide

/-- C9: the file simultaneously defines the parallel-enable board tag
ESP32_PARALLEL while the 8-bit-parallel transport flag TFT_PARALLEL_8_BIT
is left undefined and the serial pin symbols TFT_MISO, TFT_MOSI, TFT_SCLK
are defined. -/
theorem c9_contradictory_parallel_tag :
    isDefined userSetup "ESP32_PARALLEL" = true ∧
    isDefined userSetup "TFT_PARALLEL_8_BIT" = false ∧
    isDefined userSetup "TFT_MISO" = true ∧
    isDefined userSetup "TFT_MOSI" = true ∧
    isDefined userSetup "TFT_SCLK" = true := by decide

/-- C10: the seven active display pin assignments are pairwise distinct
and each lies in the valid ESP32 GPIO index range 0–39, and among all pin
symbols the touch chip-select TOUCH_CS = -1 is the only one with a
negative (sentinel) value. -/
theorem c10_pins_distinct_in_range :
    (displayPinSymbols.filterMap (intValue userSetup)).Nodup ∧
    (displayPinSymbols.filterMap (intValue userSetup)).length = 7 ∧
    (∀ v ∈ displayPinSymbols.filterMap (intValue userSetup),
      0 ≤ v ∧ v ≤ 39) ∧
    pinSymbols.filter
        (fun n => match intValue userSetup n with
          | some v => decide (v < 0)
          | none => false) =
      ["TOUCH_CS"] := by decide
